import Mathlib

/-!
Verification of the Auron voice session orchestrator core.

This file gives a shallow embedding of the pipeline code of the repository:

- `STTEngine.record_until_silence` and its per-frame callback `on_audio`
  (src/auron/voice_recognition/stt_engine.py),
- `VoiceKeyEngine.start/pause/stop` and `_audio_callback`
  (src/auron/voice_recognition/voicekey_engine.py),
- `AssistantController._on_wake` / `_process_wake_event`
  (src/auron/assistant_controller.py; `AssistantApp` in src/auron/main.py is
  structurally identical on the modelled paths),
- `CommandRouter.route` and `AssistantController.handle_command`
  (src/auron/commands/command_router.py, src/auron/assistant_controller.py).

Audio frames are abstract values of a type `α`; the black-box VAD and wake
detector are parameters.  A call that may raise a Python exception is a
parameter of type `Except Unit _`; a per-frame callback returns, next to its
state, a `Bool` that is `true` exactly when an exception escaped the callback
body (which, under sounddevice, aborts the stream so no further frames are
delivered).
-/

namespace STT

/-- Default configuration values of `STTConfig` (stt_engine.py lines 25-33). -/
def sampleRate : Nat := 16000

/-- Frame duration in milliseconds (`frame_ms = 30`). -/
def frameMs : Nat := 30

/-- Hard recording timeout in seconds (`max_record_seconds = 20`). -/
def maxRecordSeconds : Nat := 20

/-- Continuous-silence stop threshold, in milliseconds
(`min_silence_time = 1.2` seconds). -/
def minSilenceMs : Nat := 1200

/-- Pre-speech padding in milliseconds (`pre_speech_padding_ms = 300`). -/
def preSpeechPaddingMs : Nat := 300

/-- Samples per frame: `_frame_samples = int(sample_rate * frame_ms / 1000)`. -/
def frameSamples : Nat := sampleRate * frameMs / 1000

/-- Capacity of the pre-roll ring:
`_pre_pad_frames = max(1, int(pre_speech_padding_ms / frame_ms))` = 10. -/
def prePadFrames : Nat := max 1 (preSpeechPaddingMs / frameMs)

end STT

/-- The last `n` elements of a list (used to describe the pre-roll ring). -/
def lastN (n : Nat) (l : List α) : List α := l.drop (l.length - n)

/-- One update of the bounded pre-roll ring, as in `on_audio`
(stt_engine.py lines 119-122): append the frame, then
`if len(pad_buffer) > _pre_pad_frames: pad_buffer.pop(0)`. -/
def pushRing (P : Nat) (p : List α) (f : α) : List α :=
  let p1 := p ++ [f]
  if P < p1.length then p1.tail else p1

/-- Mutable state of `record_until_silence` (stt_engine.py lines 99-103):
`pad_buffer`, `audio_frames`, `have_detected_speech`, `silence_started_at`.
The clock is abstracted to the index of the frame being processed. -/
structure RecState (α : Type) where
  padBuffer : List α
  audioFrames : List α
  haveDetectedSpeech : Bool
  silenceStartedAt : Option Nat

/-- Initial recorder state (empty buffers, no speech detected yet). -/
def initRec : RecState α :=
  { padBuffer := [], audioFrames := [], haveDetectedSpeech := false,
    silenceStartedAt := none }

/-- One call of the `on_audio` callback of `record_until_silence`
(stt_engine.py lines 105-137), for one frame `f` arriving at time `now`.
The pre-roll ring is updated before the VAD call, exactly as in the source.
The returned `Bool` is `true` when the VAD raised, in which case the
exception escapes the callback (there is no try/except in `on_audio`);
the state mutations made before the raise are kept. -/
def onAudio (P : Nat) (vad : α → Except Unit Bool) (now : Nat)
    (s : RecState α) (f : α) : RecState α × Bool :=
  let s1 := if s.haveDetectedSpeech then s
            else { s with padBuffer := pushRing P s.padBuffer f }
  match vad f with
  | Except.error _ => (s1, true)
  | Except.ok true =>
      let s2 := if s1.haveDetectedSpeech then s1
                else { s1 with audioFrames := s1.audioFrames ++ s1.padBuffer,
                               padBuffer := [] }
      ({ s2 with haveDetectedSpeech := true, silenceStartedAt := none,
                 audioFrames := s2.audioFrames ++ [f] }, false)
  | Except.ok false =>
      if s1.haveDetectedSpeech then
        ({ s1 with audioFrames := s1.audioFrames ++ [f],
                   silenceStartedAt := some (s1.silenceStartedAt.getD now) },
         false)
      else (s1, false)

/-- Delivery of a sequence of frames to `on_audio`.  When the callback lets
an exception escape, sounddevice aborts the stream: no further frame is
delivered and the state reached so far is kept. -/
def runFrames (P : Nat) (v : α → Except Unit Bool) :
    RecState α → Nat → List α → RecState α
  | s, _, [] => s
  | s, i, f :: rest =>
      let step := onAudio P v i s f
      if step.2 = true then step.1
      else runFrames P v step.1 (i + 1) rest

/-- The buffer returned by `record_until_silence` (stt_engine.py lines
139-166) for a given sequence of delivered frames: the concatenation of
`audio_frames` (an exhausted frame list returns the empty buffer, matching
`np.array([], dtype=np.int16)` for `if not audio_frames`). -/
def recordUntilSilence (P : Nat) (v : α → Except Unit Bool)
    (frames : List α) : List α :=
  (runFrames P v initRec 0 frames).audioFrames

/-- The total VAD used when the classifier does not raise. -/
def vadOf (c : α → Bool) : α → Except Unit Bool := fun f => Except.ok (c f)

/-- Stream lifecycle state of `VoiceKeyEngine` (voicekey_engine.py):
`stream = None` after `stop()` (decommissioned), else `some active`
mirroring `self.stream.active`. -/
structure VoiceKeyEngine where
  stream : Option Bool
deriving DecidableEq

/-- `VoiceKeyEngine.start` (voicekey_engine.py lines 143-152):
`if self.stream: if not self.stream.active: self.stream.start()`. -/
def VoiceKeyEngine.start (e : VoiceKeyEngine) : VoiceKeyEngine :=
  match e.stream with
  | some active => if active then e else { stream := some true }
  | none => e

/-- `VoiceKeyEngine.pause` (voicekey_engine.py lines 154-160):
`if self.stream and self.stream.active: self.stream.stop()`. -/
def VoiceKeyEngine.pause (e : VoiceKeyEngine) : VoiceKeyEngine :=
  match e.stream with
  | some active => if active then { stream := some false } else e
  | none => e

/-- `VoiceKeyEngine.stop` (voicekey_engine.py lines 162-178): closes and
deletes the stream (`self.stream = None`). -/
def VoiceKeyEngine.stop (_e : VoiceKeyEngine) : VoiceKeyEngine :=
  { stream := none }

/-- One call of `VoiceKeyEngine._audio_callback` (voicekey_engine.py lines
105-141) on one PCM frame.  The whole body is wrapped in try/except, so a
detector exception is caught and logged and no callback thread is spawned.
Result: (wake callback dispatched, exception escaped the callback).
Porcupine returns an index, with detection iff `result >= 0`. -/
def wakeAudioCallback (process : List Int → Except Unit Int)
    (pcm : List Int) : Bool × Bool :=
  match process pcm with
  | Except.ok r => (decide (0 ≤ r), false)
  | Except.error _ => (false, false)

/-- Number of frames of a sequence on which the wake callback is dispatched. -/
def dispatchCount (process : List Int → Except Unit Int)
    (framesList : List (List Int)) : Nat :=
  (framesList.map (fun f => (wakeAudioCallback process f).1)).count true

/-- Keyword parameters accepted by `VoiceKeyEngine.__init__`
(voicekey_engine.py line 42: `def __init__(self, callback, sensitivity: float = 0.6, device=None)`). -/
def voiceKeyEngineInitParams : List String := ["callback", "sensitivity", "device"]

/-- Keyword arguments passed when the engine is constructed by its callers
(assistant_controller.py lines 57 and 98, main.py line 19:
`VoiceKeyEngine(self._on_wake, cooldown_seconds=1.0)`). -/
def engineCallSiteKwargs : List String := ["cooldown_seconds"]

/-- Observable outcome of one run of `_process_wake_event`
(assistant_controller.py lines 285-321 / main.py lines 37-78). -/
structure WorkerResult where
  engine : VoiceKeyEngine
  busyReleased : Bool
  transcribeCalled : Bool
  handled : Bool
  raised : Bool

/-- One run of the worker `_process_wake_event`, entered with the
single-flight lock `_busy` held.  Oracles: whether `engine.pause()` raises,
the outcome of `record_until_silence` (a buffer, or a raise which the worker
catches setting `audio = None`), whether `engine.start()` raises in the
finally block (caught there), and the outcome of `stt.transcribe`.
Control flow mirrors the source: the outer try has only a finally that
resumes the engine, so an exception from `pause()` propagates out of the
worker after the finally, and on that path `self._busy.release()` is never
reached. -/
def processWakeEvent (e : VoiceKeyEngine) (pauseErr : Bool)
    (recordRes : Except Unit (List α)) (resumeErr : Bool)
    (transcribeRes : Except Unit String) : WorkerResult :=
  let ePaused := if pauseErr then e else e.pause
  let audio : Option (List α) :=
    if pauseErr then none
    else match recordRes with
         | Except.ok buf => some buf
         | Except.error _ => none
  let eResumed := if resumeErr then ePaused else ePaused.start
  if pauseErr then
    { engine := eResumed, busyReleased := false, transcribeCalled := false,
      handled := false, raised := true }
  else
    match audio with
    | none =>
        { engine := eResumed, busyReleased := true, transcribeCalled := false,
          handled := false, raised := false }
    | some buf =>
        if buf.isEmpty then
          { engine := eResumed, busyReleased := true,
            transcribeCalled := false, handled := false, raised := false }
        else
          match transcribeRes with
          | Except.error _ =>
              { engine := eResumed, busyReleased := true,
                transcribeCalled := true, handled := false, raised := false }
          | Except.ok text =>
              { engine := eResumed, busyReleased := true,
                transcribeCalled := true, handled := !text.isEmpty,
                raised := false }

/-- Abstract orchestrator state for the single-flight claim: the `_busy`
lock and the number of worker threads currently executing. -/
structure OrchState where
  busy : Bool
  sessions : Nat
deriving DecidableEq

/-- `_on_wake` (assistant_controller.py lines 273-283 / main.py lines 26-33):
`if not self._busy.acquire(blocking=False): return` drops the event with no
state change and no queueing; otherwise the lock is taken and one worker
thread is spawned. -/
def onWake (s : OrchState) : OrchState :=
  if s.busy then s else { busy := true, sessions := s.sessions + 1 }

/-- Exit of a worker thread; `released` tells whether it reached a
`self._busy.release()` call before exiting. -/
def onWorkerExit (released : Bool) (s : OrchState) : OrchState :=
  { busy := if released then false else s.busy, sessions := s.sessions - 1 }

/-- States reachable from startup (`_busy` free, no worker).  A worker-exit
event can only be produced by a worker that exists. -/
inductive OrchReach : OrchState → Prop
  | init : OrchReach ⟨false, 0⟩
  | wake {s : OrchState} : OrchReach s → OrchReach (onWake s)
  | workerExit {s : OrchState} (released : Bool) :
      OrchReach s → 1 ≤ s.sessions → OrchReach (onWorkerExit released s)

namespace Router

/-- An internal command (command_router.py lines 21-27): a compiled pattern,
abstracted to its `search` outcome on a text, and a handler that may
return `None`. -/
structure Command where
  pattern : String → Bool
  handler : String → Option String

/-- `CommandRouter.route` (command_router.py lines 61-74): the commands are
tried in registration order, the first match wins and its handler is called
with the full text; with no match the text goes to the LLM unchanged. -/
inductive RouteResult
  | internal (payload : Option String)
  | llm (text : String)
deriving DecidableEq

/-- The routing loop of `CommandRouter.route`. -/
def route (cmds : List Command) (text : String) : RouteResult :=
  match cmds.find? (fun c => c.pattern text) with
  | some c => RouteResult.internal (c.handler text)
  | none => RouteResult.llm text

/-- `AssistantController.handle_command` (assistant_controller.py lines
217-244): on an internal match, `response = payload or ""` (so `None`
becomes the empty string) and the LLM is not called; otherwise the LLM is
called on the composed prompt.  Result: (returned response, LLM invoked). -/
def handleCommand (cmds : List Command) (llmGen : String → String)
    (sysPrompt : String) (text : String) : Option String × Bool :=
  match route cmds text with
  | RouteResult.internal payload => (some (payload.getD ""), false)
  | RouteResult.llm t =>
      let fullPrompt := sysPrompt ++ "\n\nUser: " ++ t ++ "\nAssistant:"
      (some (llmGen fullPrompt), true)

end Router

/-! Helper lemmas about the pre-roll ring and frame delivery. -/

lemma length_lastN (n : Nat) (l : List α) : (lastN n l).length = min n l.length := by
  simp only [lastN, List.length_drop]
  omega

lemma pushRing_lastN (P : Nat) (hP : 1 ≤ P) (xs : List α) (f : α) :
    pushRing P (lastN P xs) f = lastN P (xs ++ [f]) := by
  simp only [pushRing]
  by_cases h : P ≤ xs.length
  · have hlen : (lastN P xs).length = P := by rw [length_lastN]; omega
    have h1 : P < (lastN P xs ++ [f]).length := by
      simp only [List.length_append, hlen, List.length_cons, List.length_nil]
      omega
    rw [if_pos h1, ← List.drop_one, List.drop_append_eq_append_drop]
    have h2 : 1 - (lastN P xs).length = 0 := by omega
    rw [h2, List.drop_zero]
    simp only [lastN, List.drop_drop]
    rw [List.drop_append_eq_append_drop]
    have h3 : (xs ++ [f]).length = xs.length + 1 := by simp
    rw [h3]
    have h4 : xs.length + 1 - P - xs.length = 0 := by omega
    rw [h4, List.drop_zero]
    have h5 : xs.length - P + 1 = xs.length + 1 - P := by omega
    rw [h5]
  · have h1 : ¬ P < (lastN P xs ++ [f]).length := by
      simp only [List.length_append, length_lastN, List.length_cons,
        List.length_nil]
      omega
    rw [if_neg h1]
    have h2 : xs.length - P = 0 := by omega
    have h3 : xs.length + 1 - P = 0 := by omega
    simp [lastN, h2, h3]

lemma lastN_append_singleton (P : Nat) (hP : 1 ≤ P) (xs : List α) (f : α) :
    lastN P (xs ++ [f]) = lastN (P - 1) xs ++ [f] := by
  simp only [lastN]
  rw [List.drop_append_eq_append_drop]
  have h3 : (xs ++ [f]).length = xs.length + 1 := by simp
  rw [h3]
  have h4 : xs.length + 1 - P - xs.length = 0 := by omega
  rw [h4, List.drop_zero]
  have h5 : xs.length + 1 - P = xs.length - (P - 1) := by omega
  rw [h5]

lemma onAudio_silent_pre (P : Nat) (v : α → Except Unit Bool) (now : Nat)
    (p A : List α) (t : Option Nat) (f : α) (hv : v f = Except.ok false) :
    onAudio P v now ⟨p, A, false, t⟩ f = (⟨pushRing P p f, A, false, t⟩, false) := by
  simp [onAudio, hv]

lemma onAudio_speech_first (P : Nat) (v : α → Except Unit Bool) (now : Nat)
    (p A : List α) (t : Option Nat) (f : α) (hv : v f = Except.ok true) :
    onAudio P v now ⟨p, A, false, t⟩ f
      = (⟨[], (A ++ pushRing P p f) ++ [f], true, none⟩, false) := by
  simp [onAudio, hv]

lemma onAudio_speech_cont (P : Nat) (v : α → Except Unit Bool) (now : Nat)
    (p A : List α) (t : Option Nat) (f : α) (hv : v f = Except.ok true) :
    onAudio P v now ⟨p, A, true, t⟩ f = (⟨p, A ++ [f], true, none⟩, false) := by
  simp [onAudio, hv]

lemma onAudio_silent_after (P : Nat) (v : α → Except Unit Bool) (now : Nat)
    (p A : List α) (t : Option Nat) (f : α) (hv : v f = Except.ok false) :
    onAudio P v now ⟨p, A, true, t⟩ f
      = (⟨p, A ++ [f], true, some (t.getD now)⟩, false) := by
  simp [onAudio, hv]

lemma onAudio_snd_ok (P : Nat) (v : α → Except Unit Bool) (now : Nat)
    (s : RecState α) (f : α) (b : Bool) (hv : v f = Except.ok b) :
    (onAudio P v now s f).2 = false := by
  cases b with
  | true => simp only [onAudio, hv]
  | false =>
      simp only [onAudio, hv]
      split <;> rfl

lemma onAudio_vad_error (P : Nat) (v : α → Except Unit Bool) (now : Nat)
    (s : RecState α) (f : α) (hv : v f = Except.error ()) :
    (onAudio P v now s f).2 = true
      ∧ (onAudio P v now s f).1.audioFrames = s.audioFrames := by
  refine ⟨?_, ?_⟩
  · simp only [onAudio, hv]
  · simp only [onAudio, hv]
    split <;> rfl

lemma runFrames_nil (P : Nat) (v : α → Except Unit Bool) (s : RecState α)
    (i : Nat) : runFrames P v s i [] = s := rfl

lemma runFrames_cons_ok (P : Nat) (v : α → Except Unit Bool) (s : RecState α)
    (i : Nat) (f : α) (rest : List α) (h : (onAudio P v i s f).2 = false) :
    runFrames P v s i (f :: rest)
      = runFrames P v (onAudio P v i s f).1 (i + 1) rest := by
  simp only [runFrames]
  rw [h]
  simp

lemma runFrames_cons_err (P : Nat) (v : α → Except Unit Bool) (s : RecState α)
    (i : Nat) (f : α) (rest : List α) (h : (onAudio P v i s f).2 = true) :
    runFrames P v s i (f :: rest) = (onAudio P v i s f).1 := by
  simp only [runFrames]
  rw [h]
  simp

lemma runFrames_append (P : Nat) (v : α → Except Unit Bool) (l r : List α) :
    ∀ (s : RecState α) (i : Nat), (∀ f ∈ l, (v f).isOk = true) →
      runFrames P v s i (l ++ r)
        = runFrames P v (runFrames P v s i l) (i + l.length) r := by
  induction l with
  | nil => intro s i _; simp [runFrames_nil]
  | cons f l' ih =>
      intro s i hl
      have hf : (v f).isOk = true := hl f (List.mem_cons_self ..)
      obtain ⟨b, hb⟩ : ∃ b, v f = Except.ok b := by
        cases hvf : v f with
        | ok b => exact ⟨b, rfl⟩
        | error e => rw [hvf] at hf; simp [Except.isOk, Except.toBool] at hf
      have h2 := onAudio_snd_ok P v i s f b hb
      rw [List.cons_append, runFrames_cons_ok P v s i f (l' ++ r) h2,
        runFrames_cons_ok P v s i f l' h2,
        ih (onAudio P v i s f).1 (i + 1)
          (fun g hg => hl g (List.mem_cons_of_mem _ hg))]
      have h3 : i + 1 + l'.length = i + (f :: l').length := by
        simp only [List.length_cons]; omega
      rw [h3]

lemma runFrames_preSpeech (P : Nat) (hP : 1 ≤ P) (c : α → Bool)
    (sil : List α) :
    ∀ (xs A : List α) (t : Option Nat) (i : Nat), (∀ f ∈ sil, c f = false) →
      runFrames P (vadOf c) ⟨lastN P xs, A, false, t⟩ i sil
        = ⟨lastN P (xs ++ sil), A, false, t⟩ := by
  induction sil with
  | nil => intro xs A t i _; simp [runFrames_nil]
  | cons f rest ih =>
      intro xs A t i hsil
      have hv : vadOf c f = Except.ok false := by
        simp [vadOf, hsil f (List.mem_cons_self ..)]
      have hstep := onAudio_silent_pre P (vadOf c) i (lastN P xs) A t f hv
      rw [runFrames_cons_ok P (vadOf c) _ i f rest (by rw [hstep]), hstep]
      simp only
      rw [pushRing_lastN P hP,
        ih (xs ++ [f]) A t (i + 1)
          (fun g hg => hsil g (List.mem_cons_of_mem _ hg))]
      simp

lemma runFrames_speech (P : Nat) (c : α → Bool) (sp : List α) :
    ∀ (p A : List α) (i : Nat), (∀ f ∈ sp, c f = true) →
      runFrames P (vadOf c) ⟨p, A, true, none⟩ i sp
        = ⟨p, A ++ sp, true, none⟩ := by
  induction sp with
  | nil => intro p A i _; simp [runFrames_nil]
  | cons f rest ih =>
      intro p A i hsp
      have hv : vadOf c f = Except.ok true := by
        simp [vadOf, hsp f (List.mem_cons_self ..)]
      have hstep := onAudio_speech_cont P (vadOf c) i p A none f hv
      rw [runFrames_cons_ok P (vadOf c) _ i f rest (by rw [hstep]), hstep]
      simp only
      rw [ih p (A ++ [f]) (i + 1)
        (fun g hg => hsp g (List.mem_cons_of_mem _ hg))]
      simp

lemma runFrames_silenceAfter (P : Nat) (c : α → Bool) (tr : List α) :
    ∀ (p A : List α) (t : Option Nat) (i : Nat), (∀ f ∈ tr, c f = false) →
      (runFrames P (vadOf c) ⟨p, A, true, t⟩ i tr).audioFrames = A ++ tr := by
  induction tr with
  | nil => intro p A t i _; simp [runFrames_nil]
  | cons f rest ih =>
      intro p A t i htr
      have hv : vadOf c f = Except.ok false := by
        simp [vadOf, htr f (List.mem_cons_self ..)]
      have hstep := onAudio_silent_after P (vadOf c) i p A t f hv
      rw [runFrames_cons_ok P (vadOf c) _ i f rest (by rw [hstep]), hstep]
      simp only
      rw [ih p (A ++ [f]) (some (t.getD i)) (i + 1)
        (fun g hg => htr g (List.mem_cons_of_mem _ hg))]
      simp

lemma runFrames_cons_of_ok (P : Nat) (v : α → Except Unit Bool)
    (s s' : RecState α) (i : Nat) (f : α) (rest : List α)
    (h : onAudio P v i s f = (s', false)) :
    runFrames P v s i (f :: rest) = runFrames P v s' (i + 1) rest := by
  rw [runFrames_cons_ok P v s i f rest (by rw [h]), h]

lemma find?_first_match {β : Type} (p : β → Bool) (c : β) (post : List β) :
    ∀ pre : List β, (∀ x ∈ pre, p x = false) → p c = true →
      (pre ++ c :: post).find? p = some c := by
  intro pre
  induction pre with
  | nil => intro _ hc; simp [List.find?_cons_of_pos _ hc]
  | cons a pre' ih =>
      intro hpre hc
      rw [List.cons_append, List.find?_cons_of_neg]
      · exact ih (fun x hx => hpre x (List.mem_cons_of_mem _ hx)) hc
      · simp [hpre a (List.mem_cons_self ..)]

/-! Claim theorems. -/

/-- C1: single-flight.  From startup, along any sequence of wake events and
worker exits, at most one worker session exists at any time; and a wake
event arriving while the busy lock is held leaves the orchestrator state
unchanged — it is dropped without spawning a worker and without being
queued (there is no queue in the state, and the drop is the identity).
Models `_on_wake` (assistant_controller.py lines 273-283, main.py lines
26-33). -/
theorem c1_single_flight :
    (∀ s : OrchState, OrchReach s → s.sessions ≤ 1) ∧
    (∀ s : OrchState, s.busy = true → onWake s = s) := by
  constructor
  · have key : ∀ s : OrchState, OrchReach s →
        s.sessions ≤ 1 ∧ (s.busy = false → s.sessions = 0) := by
      intro s h
      induction h with
      | init => exact ⟨Nat.zero_le 1, fun _ => rfl⟩
      | @wake s' h ih =>
          by_cases hb : s'.busy = true
          · simpa [onWake, hb] using ih
          · have hb0 : s'.busy = false := by
              cases hbusy : s'.busy
              · rfl
              · exact absurd hbusy hb
            have h0 := ih.2 hb0
            constructor
            · simp [onWake, hb0, h0]
            · intro hcontra
              simp [onWake, hb0] at hcontra
      | @workerExit s' released h hs ih =>
          constructor
          · simp only [onWorkerExit]
            have := ih.1
            omega
          · intro _
            simp only [onWorkerExit]
            have := ih.1
            omega
    exact fun s h => (key s h).1
  · intro s hb
    simp [onWake, hb]

/-- Witness for C1: the initial state is reachable and satisfies the bound,
and a busy state drops a wake event unchanged. -/
theorem c1_single_flight_witness :
    (OrchState.mk false 0).sessions ≤ 1 ∧
    onWake (OrchState.mk true 1) = OrchState.mk true 1 :=
  ⟨c1_single_flight.1 ⟨false, 0⟩ OrchReach.init,
   c1_single_flight.2 ⟨true, 1⟩ rfl⟩

/-- C2: the worker releases the busy lock on the normal, empty-buffer,
recording-error, transcription-error and resume-error paths; but when
`engine.pause()` raises at the top of `_process_wake_event`, the outer try
has only a finally (which resumes the engine), so the exception propagates
out of the worker and `self._busy.release()` is never executed — the
system remains stuck busy.  The claim, which lists the pause-error path
among the released ones, is false on that path
(assistant_controller.py lines 285-321, main.py lines 37-78). -/
theorem c2_busy_release_paths :
    (∀ (e : VoiceKeyEngine) (rec : Except Unit (List Int)) (rErr : Bool)
        (tr : Except Unit String),
        (processWakeEvent e false rec rErr tr).busyReleased = true) ∧
    (processWakeEvent (VoiceKeyEngine.mk (some true)) true
        (Except.ok [(1 : Int)]) false (Except.ok "hello")).busyReleased
      = false ∧
    (processWakeEvent (VoiceKeyEngine.mk (some true)) true
        (Except.ok [(1 : Int)]) false (Except.ok "hello")).raised = true := by
  refine ⟨?_, rfl, rfl⟩
  intro e rec rErr tr
  cases rec with
  | error u => rfl
  | ok buf =>
      cases hbe : buf.isEmpty
      · cases tr with
        | error u => simp [processWakeEvent, hbe]
        | ok text => simp [processWakeEvent, hbe]
      · simp [processWakeEvent, hbe]

/-- C3: resume guarantee.  For every session on an engine whose stream
exists, and for every combination of pause, recording and transcription
outcomes, as long as `engine.start()` itself does not raise in the finally
block, the stream is active again when the worker exits: the microphone is
never left paused by a downstream error
(assistant_controller.py lines 300-305, voicekey_engine.py lines 143-152). -/
theorem c3_resume_guarantee (e : VoiceKeyEngine) (b : Bool) (pErr : Bool)
    (rec : Except Unit (List Int)) (tr : Except Unit String)
    (h : e.stream = some b) :
    (processWakeEvent e pErr rec false tr).engine.stream = some true := by
  have hpause : ∀ (e' : VoiceKeyEngine) (b' : Bool), e'.stream = some b' →
      (e'.pause).stream = some false := by
    intro e' b' h'
    cases b' <;> simp [VoiceKeyEngine.pause, h']
  have hstart : ∀ (e' : VoiceKeyEngine) (b' : Bool), e'.stream = some b' →
      (e'.start).stream = some true := by
    intro e' b' h'
    cases b' <;> simp [VoiceKeyEngine.start, h']
  have hengine : (processWakeEvent e pErr rec false tr).engine
      = (if pErr then e else e.pause).start := by
    cases pErr with
    | true => rfl
    | false =>
        cases rec with
        | error u => rfl
        | ok buf =>
            cases hbe : buf.isEmpty
            · cases tr with
              | error u => simp [processWakeEvent, hbe]
              | ok text => simp [processWakeEvent, hbe]
            · simp [processWakeEvent, hbe]
  rw [hengine]
  cases pErr with
  | true => exact hstart e b h
  | false => exact hstart _ _ (hpause e b h)

/-- Witness for C3: a session with an active stream and a recording error
still ends with an active stream. -/
theorem c3_resume_guarantee_witness :
    (processWakeEvent (VoiceKeyEngine.mk (some true)) false
        (Except.error () : Except Unit (List Int)) false
        (Except.error ())).engine.stream = some true :=
  c3_resume_guarantee ⟨some true⟩ true false (Except.error ())
    (Except.error ()) rfl

/-- C4: the claimed debounce does not exist in the code.  The keyword
`cooldown_seconds`, passed at every engine construction site, is not a
parameter of `VoiceKeyEngine.__init__` (the call raises TypeError), the
engine state holds no `last_trigger_time`, and the per-frame callback
dispatches the wake callback on every detection with no time gating: two
detections in immediate succession (e.g. 0.5 s apart) both dispatch. -/
theorem c4_no_debounce_in_engine :
    ("cooldown_seconds" ∈ engineCallSiteKwargs ∧
      "cooldown_seconds" ∉ voiceKeyEngineInitParams) ∧
    dispatchCount (fun _ => Except.ok 0) [[0], [1]] = 2 := by
  refine ⟨⟨?_, ?_⟩, ?_⟩ <;> decide

/-- C5 counterexample: with ten leading silence frames, one speech frame and
forty trailing silence frames (40 x 30 ms = 1.2 s, meeting the
min-silence bound), the returned buffer is not, as claimed, the ten most
recent leading silence frames followed by the speech frame and the trailing
frames: the ring held only nine silence frames when speech arrived (the
speech frame itself occupied the tenth slot) and the first speech frame is
flushed from the ring and then appended again, appearing twice. -/
theorem c5_counterexample :
    recordUntilSilence STT.prePadFrames (vadOf (fun n => decide (100 ≤ n)))
        ([1, 2, 3, 4, 5, 6, 7, 8, 9, 10] ++ 100 :: List.replicate 40 0)
      ≠ [1, 2, 3, 4, 5, 6, 7, 8, 9, 10] ++ 100 :: List.replicate 40 0 := by
  decide

/-- C5 (amended): for every delivered frame sequence
`sil ++ (s1 :: sp) ++ trail` with `sil`, `trail` classified non-speech and
`s1 :: sp` classified speech, and with the trailing silence meeting the
min-silence bound, the returned buffer is: up to
`pre_speech_padding_ms / frame_ms - 1` most recent leading silence frames
(the ring slot count minus the slot taken by the onset frame; older frames
are evicted), then the first speech frame twice (flushed with the ring and
appended again), then the remaining speech frames, then the trailing
silence frames (stt_engine.py lines 89-166). -/
theorem c5_amended_endpointing {α : Type} (c : α → Bool)
    (sil sp trail : List α) (s1 : α)
    (hsil : ∀ f ∈ sil, c f = false)
    (hs1 : c s1 = true)
    (hsp : ∀ f ∈ sp, c f = true)
    (htrail : ∀ f ∈ trail, c f = false)
    (hn : STT.minSilenceMs ≤ trail.length * STT.frameMs) :
    recordUntilSilence STT.prePadFrames (vadOf c) (sil ++ (s1 :: sp) ++ trail)
      = lastN (STT.prePadFrames - 1) sil ++ s1 :: s1 :: (sp ++ trail) := by
  have hP : (1 : Nat) ≤ STT.prePadFrames := by decide
  unfold recordUntilSilence
  rw [List.append_assoc, List.cons_append,
    runFrames_append STT.prePadFrames (vadOf c) sil (s1 :: (sp ++ trail))
      initRec 0 (fun f _ => rfl)]
  have h1 : runFrames STT.prePadFrames (vadOf c) initRec 0 sil
      = ⟨lastN STT.prePadFrames sil, [], false, none⟩ := by
    have := runFrames_preSpeech STT.prePadFrames hP c sil [] [] none 0 hsil
    simpa [initRec, lastN] using this
  rw [h1]
  have hv1 : vadOf c s1 = Except.ok true := by simp [vadOf, hs1]
  have hstep : onAudio STT.prePadFrames (vadOf c) (0 + sil.length)
      ⟨lastN STT.prePadFrames sil, [], false, none⟩ s1
      = (⟨[], lastN STT.prePadFrames (sil ++ [s1]) ++ [s1], true, none⟩,
         false) := by
    rw [onAudio_speech_first STT.prePadFrames (vadOf c) (0 + sil.length)
      (lastN STT.prePadFrames sil) [] none s1 hv1]
    simp [pushRing_lastN STT.prePadFrames hP]
  rw [runFrames_cons_of_ok STT.prePadFrames (vadOf c) _ _ _ s1 _ hstep,
    runFrames_append STT.prePadFrames (vadOf c) sp trail _ _ (fun f _ => rfl),
    runFrames_speech STT.prePadFrames c sp _ _ _ hsp,
    runFrames_silenceAfter STT.prePadFrames c trail _ _ _ _ htrail,
    lastN_append_singleton STT.prePadFrames hP]
  simp

/-- Witness for C5 (amended) at a concrete frame sequence: one speech frame
and forty trailing silence frames. -/
theorem c5_amended_endpointing_witness :
    recordUntilSilence STT.prePadFrames (vadOf (fun n => decide (100 ≤ n)))
        ([] ++ ((100 : Nat) :: []) ++ List.replicate 40 0)
      = lastN (STT.prePadFrames - 1) []
          ++ 100 :: 100 :: ([] ++ List.replicate 40 0) :=
  c5_amended_endpointing (fun n => decide (100 ≤ n)) [] []
    (List.replicate 40 0) 100 (by decide) (by decide) (by decide)
    (by decide) (by decide)

/-- C6: for every recording in which no delivered frame is classified as
speech (including an all-silence input outlasting the hard timeout of
`max_record_seconds`, about 667 frames), the returned buffer is empty, and
a session whose recording returns the empty buffer never calls the
transcriber (stt_engine.py lines 147-160, assistant_controller.py lines
306-310). -/
theorem c6_no_speech_no_transcription {α : Type} (c : α → Bool)
    (frames : List α) (e : VoiceKeyEngine) (rErr : Bool)
    (tr : Except Unit String)
    (h : ∀ f ∈ frames, c f = false) :
    recordUntilSilence STT.prePadFrames (vadOf c) frames = [] ∧
    (processWakeEvent e false
        (Except.ok (recordUntilSilence STT.prePadFrames (vadOf c) frames))
        rErr tr).transcribeCalled = false := by
  have hP : (1 : Nat) ≤ STT.prePadFrames := by decide
  have h1 : recordUntilSilence STT.prePadFrames (vadOf c) frames = [] := by
    unfold recordUntilSilence
    have h2 : runFrames STT.prePadFrames (vadOf c) initRec 0 frames
        = ⟨lastN STT.prePadFrames frames, [], false, none⟩ := by
      have := runFrames_preSpeech STT.prePadFrames hP c frames [] [] none 0 h
      simpa [initRec, lastN] using this
    rw [h2]
  refine ⟨h1, ?_⟩
  rw [h1]
  simp [processWakeEvent]

/-- Witness for C6: an all-silence input of 700 frames (21 s at 30 ms per
frame, past the 20 s hard timeout) yields the empty buffer and no
transcription. -/
theorem c6_no_speech_no_transcription_witness :
    recordUntilSilence STT.prePadFrames (vadOf (fun n => decide (100 ≤ n)))
        (List.replicate 700 0) = [] ∧
    (processWakeEvent (VoiceKeyEngine.mk (some true)) false
        (Except.ok (recordUntilSilence STT.prePadFrames
          (vadOf (fun n => decide (100 ≤ n))) (List.replicate 700 0)))
        false (Except.ok "x")).transcribeCalled = false :=
  c6_no_speech_no_transcription (fun n => decide (100 ≤ n))
    (List.replicate 700 0) ⟨some true⟩ false (Except.ok "x")
    (by intro f hf; rw [List.eq_of_mem_replicate hf]; rfl)

/-- C7 counterexample: a voice-activity classifier exception inside the
recorder callback `on_audio` is not caught at the frame boundary — it
escapes the callback (second component `true`), terminating frame
delivery, contrary to the claim that per-frame exceptions are caught and
the callback loop keeps running (stt_engine.py lines 105-137 have no
try/except). -/
theorem c7_counterexample :
    (onAudio STT.prePadFrames
        (fun _ : Nat => (Except.error () : Except Unit Bool))
        0 initRec 5).2 = true := rfl

/-- C7 (amended): an exception of the wake detector inside
`_audio_callback` is caught at the frame boundary and treated as no
detection, so the wake stream keeps running; but an exception of the
voice-activity classifier inside the recorder callback is not caught — it
escapes the callback, ending frame delivery for that recording, while the
frames captured before the error are kept (voicekey_engine.py lines
105-141, stt_engine.py lines 105-137). -/
theorem c7_amended_frame_errors (process : List Int → Except Unit Int)
    (pcm : List Int) (vad : Nat → Except Unit Bool) (s : RecState Nat)
    (f i P : Nat)
    (hp : process pcm = Except.error ())
    (hv : vad f = Except.error ()) :
    wakeAudioCallback process pcm = (false, false) ∧
    (onAudio P vad i s f).2 = true ∧
    (onAudio P vad i s f).1.audioFrames = s.audioFrames := by
  refine ⟨?_, (onAudio_vad_error P vad i s f hv).1,
    (onAudio_vad_error P vad i s f hv).2⟩
  simp [wakeAudioCallback, hp]

/-- Witness for C7 (amended) at a concrete erroring detector and
classifier. -/
theorem c7_amended_frame_errors_witness :
    wakeAudioCallback (fun _ => Except.error ()) [0] = (false, false) ∧
    (onAudio 10 (fun _ : Nat => (Except.error () : Except Unit Bool)) 0
        initRec 5).2 = true ∧
    (onAudio 10 (fun _ : Nat => (Except.error () : Except Unit Bool)) 0
        initRec 5).1.audioFrames = (initRec : RecState Nat).audioFrames :=
  c7_amended_frame_errors (fun _ => Except.error ()) [0]
    (fun _ => Except.error ()) initRec 5 0 10 rfl rfl

/-- C8 counterexample: a classifier/stream error mid-recording after
captured speech yields a non-empty partial buffer ([100, 100]; the frame
after the error is never delivered), and the orchestrator transcribes that
non-empty buffer — contrary to the claim that the partial buffer is
treated as no speech captured with no transcription attempted
(assistant_controller.py line 307 only skips `None` or empty audio). -/
theorem c8_counterexample :
    recordUntilSilence STT.prePadFrames
        (fun n => if n = 7 then Except.error ()
                  else Except.ok (decide (100 ≤ n)))
        [100, 7, 3] = [100, 100] ∧
    (processWakeEvent (VoiceKeyEngine.mk (some true)) false
        (Except.ok [(100 : Nat), 100]) false
        (Except.ok "text")).transcribeCalled = true := by
  refine ⟨?_, rfl⟩
  decide

/-- C8 (amended): a stream/classifier error mid-recording still produces
the partial buffer captured up to the error rather than raising (frames
after the error are not delivered); an exception raised by the recording
call itself is caught by the orchestrator and treated as no audio with no
transcription; but a non-empty partial buffer is transcribed — only the
empty buffer is treated as no speech captured
(stt_engine.py lines 139-166, assistant_controller.py lines 294-313). -/
theorem c8_amended_partial_buffer {α : Type} (vad : α → Except Unit Bool)
    (pre post : List α) (f : α) (e : VoiceKeyEngine) (rErr : Bool)
    (tr : Except Unit String) (buf : List α)
    (hpre : ∀ g ∈ pre, (vad g).isOk = true)
    (hf : vad f = Except.error ())
    (hbuf : buf.isEmpty = false) :
    recordUntilSilence STT.prePadFrames vad (pre ++ f :: post)
      = (runFrames STT.prePadFrames vad initRec 0 pre).audioFrames ∧
    (processWakeEvent e false (Except.error () : Except Unit (List α)) rErr
        tr).transcribeCalled = false ∧
    (processWakeEvent e false (Except.ok buf) rErr tr).transcribeCalled
      = true := by
  refine ⟨?_, rfl, ?_⟩
  · unfold recordUntilSilence
    rw [runFrames_append STT.prePadFrames vad pre (f :: post) initRec 0 hpre]
    have herr := onAudio_vad_error STT.prePadFrames vad (0 + pre.length)
      (runFrames STT.prePadFrames vad initRec 0 pre) f hf
    rw [runFrames_cons_err STT.prePadFrames vad _ _ f post herr.1]
    exact herr.2
  · cases tr with
    | error u => simp [processWakeEvent, hbuf]
    | ok text => simp [processWakeEvent, hbuf]

/-- Witness for C8 (amended): one captured speech frame, then a classifier
error; the controller transcribes the non-empty partial buffer. -/
theorem c8_amended_partial_buffer_witness :
    recordUntilSilence STT.prePadFrames
        (fun n => if n = 7 then Except.error ()
                  else Except.ok (decide (100 ≤ n)))
        ([100] ++ 7 :: [3])
      = (runFrames STT.prePadFrames
          (fun n => if n = 7 then Except.error ()
                    else Except.ok (decide (100 ≤ n)))
          initRec 0 [100]).audioFrames ∧
    (processWakeEvent (VoiceKeyEngine.mk (some true)) false
        (Except.error () : Except Unit (List Nat)) false
        (Except.ok "t")).transcribeCalled = false ∧
    (processWakeEvent (VoiceKeyEngine.mk (some true)) false
        (Except.ok [(100 : Nat), 100]) false
        (Except.ok "t")).transcribeCalled = true :=
  c8_amended_partial_buffer
    (fun n => if n = 7 then Except.error () else Except.ok (decide (100 ≤ n)))
    [100] [3] 7 ⟨some true⟩ false (Except.ok "t") [100, 100]
    (by decide) rfl rfl

/-- C9: idempotence of the lifecycle controls of `VoiceKeyEngine`: a second
`start()` after a `start()`, or a second `pause()` after a `pause()`,
leaves the stream state unchanged; `start()` on an already-active stream
and `pause()` on an inactive stream are no-ops
(voicekey_engine.py lines 143-160). -/
theorem c9_idempotent_lifecycle (e : VoiceKeyEngine) :
    (e.start).start = e.start ∧ (e.pause).pause = e.pause ∧
    (VoiceKeyEngine.mk (some true)).start = VoiceKeyEngine.mk (some true) ∧
    (VoiceKeyEngine.mk (some false)).pause = VoiceKeyEngine.mk (some false) := by
  obtain ⟨st⟩ := e
  refine ⟨?_, ?_, rfl, rfl⟩
  · cases st with
    | none => rfl
    | some b => cases b <;> rfl
  · cases st with
    | none => rfl
    | some b => cases b <;> rfl

/-- C10: responder dispatch.  For a text matched by some registered
command, `route` returns the result of the first matching handler in
registration order, and `handle_command` returns that result with `None`
coerced to the empty string — a string, never `None` — without invoking
the language model; for a text matching no registered pattern, `route`
returns the llm target with the original text unchanged
(command_router.py lines 61-74, assistant_controller.py lines 217-244). -/
theorem c10_responder_dispatch (pre post : List Router.Command)
    (c : Router.Command) (text text2 : String)
    (llmGen : String → String) (sysPrompt : String)
    (cmds2 : List Router.Command)
    (hpre : ∀ c' ∈ pre, c'.pattern text = false)
    (hc : c.pattern text = true)
    (hnone : ∀ c' ∈ cmds2, c'.pattern text2 = false) :
    Router.route (pre ++ c :: post) text
      = Router.RouteResult.internal (c.handler text) ∧
    Router.handleCommand (pre ++ c :: post) llmGen sysPrompt text
      = (some ((c.handler text).getD ""), false) ∧
    Router.route cmds2 text2 = Router.RouteResult.llm text2 := by
  have hfind := find?_first_match (fun x => x.pattern text) c post pre hpre hc
  refine ⟨?_, ?_, ?_⟩
  · simp [Router.route, hfind]
  · simp [Router.handleCommand, Router.route, hfind]
  · have hnf : cmds2.find? (fun x => x.pattern text2) = none :=
      List.find?_eq_none.mpr (fun x hx => by simp [hnone x hx])
    simp [Router.route, hnf]

/-- Witness for C10: a single always-matching command whose handler returns
`None` yields the empty string with no language-model call, and the empty
command list routes to the llm target unchanged. -/
theorem c10_responder_dispatch_witness :
    Router.route ([] ++ Router.Command.mk (fun _ => true) (fun _ => none)
        :: []) "hi"
      = Router.RouteResult.internal none ∧
    Router.handleCommand ([] ++ Router.Command.mk (fun _ => true)
        (fun _ => none) :: []) (fun _ => "") "" "hi" = (some "", false) ∧
    Router.route [] "x" = Router.RouteResult.llm "x" := by
  have h := c10_responder_dispatch [] []
    (Router.Command.mk (fun _ => true) (fun _ => none)) "hi" "x"
    (fun _ => "") "" [] (by simp) rfl (by simp)
  simpa using h
